import Mathlib

/-
Shallow embedding of the resilient multi-provider integration layer of the
space-explorer dashboard (src/app.py, src/services/n2yo_service.py,
src/services/gemini_service.py, src/services/tts_service.py,
src/services/rate_limiter.py).

External HTTP traffic is modelled by oracle functions mapping the request a
service constructs to the outcome the network produces (a successful body, a
raised request exception, or another raised exception).  Numeric JSON literals
are modelled as exact rationals, since the services only pass them through.
-/

namespace SpaceExplorer

/-- Python `str.strip()`: remove leading and trailing whitespace. -/
def pyStrip (s : String) : String :=
  ⟨((s.data.dropWhile Char.isWhitespace).reverse.dropWhile Char.isWhitespace).reverse⟩

/- ------------------------------------------------------------------ -/
/- N2YO position service (src/services/n2yo_service.py)               -/
/- ------------------------------------------------------------------ -/

/-- Configuration read by `N2YOService.__init__`: optional `N2YO_API_KEY`
and the `MOCK_MODE` toggle. -/
structure N2yoConfig where
  api_key : Option String
  mock_mode : Bool
deriving DecidableEq

/-- The outbound request constructed in `N2YOService.get_iss_position`:
`requests.get(url, params={"apiKey": ...}, timeout=10)`. -/
structure N2yoRequest where
  url : String
  apiKeyParam : String
  timeout : Option Nat
deriving DecidableEq

def n2yoBaseUrl : String := "https://api.n2yo.com/rest/v1/satellite"

def mkN2yoRequest (key : String) (latitude longitude : Rat) : N2yoRequest :=
  { url := n2yoBaseUrl ++ "/positions/25544/" ++ toString latitude ++ "/" ++
      toString longitude ++ "/0/2/"
  , apiKeyParam := key
  , timeout := some 10 }

/-- One entry of the provider's `positions` array; every field is read with
`dict.get`, hence optional. -/
structure N2yoPositionEntry where
  satlatitude : Option Rat
  satlongitude : Option Rat
  sataltitude : Option Rat
  timestamp : Option Int
deriving DecidableEq

structure N2yoInfo where
  satname : Option String
deriving DecidableEq

/-- Parsed JSON body of a 2xx N2YO response; the `positions` key itself may be
absent. -/
structure N2yoBody where
  positions : Option (List N2yoPositionEntry)
  info : Option N2yoInfo
deriving DecidableEq

/-- Outcome of the N2YO network call.  `requestException` covers network
failures, timeouts and non-success statuses (`raise_for_status`);
`otherException` covers the remaining `except Exception` arm (e.g. JSON
decoding). -/
inductive N2yoOutcome where
  | requestException (msg : String)
  | otherException (msg : String)
  | ok (body : N2yoBody)

/-- The JSON dictionary returned by `get_iss_position` / `get_mock_data`;
keys absent from a given branch are `none`. -/
structure PositionResult where
  satellite_name : Option String
  latitude : Option Rat
  longitude : Option Rat
  altitude_km : Option Rat
  timestamp : Option Int
  status : String
  message : Option String
  data_source : Option String
deriving DecidableEq

/-- `N2YOService.get_mock_data`; `now` is the value of `int(time.time())` at
the moment of the call. -/
def get_mock_data (now : Int) : PositionResult :=
  { satellite_name := some "ISS"
  , latitude := some 25.2048
  , longitude := some 55.2708
  , altitude_km := some 408.5
  , timestamp := some now
  , status := "success"
  , message := none
  , data_source := none }

/-- The error dictionary returned when the response lacks position data. -/
def noPositionDataResult : PositionResult :=
  { satellite_name := none, latitude := none, longitude := none
  , altitude_km := none, timestamp := none
  , status := "error", message := some "No position data available"
  , data_source := none }

/-- `N2YOService.get_iss_position`.  `net` is the network oracle and `now`
the current time. -/
def get_iss_position (cfg : N2yoConfig) (net : N2yoRequest → N2yoOutcome)
    (now : Int) (latitude longitude : Rat) : PositionResult :=
  if cfg.mock_mode then get_mock_data now
  else
    match cfg.api_key with
    | none => get_mock_data now
    | some key =>
      match net (mkN2yoRequest key latitude longitude) with
      | .requestException _ => get_mock_data now
      | .otherException _ => get_mock_data now
      | .ok body =>
        match body.positions with
        | some (position :: _) =>
          { satellite_name := some (((body.info.bind N2yoInfo.satname)).getD "ISS")
          , latitude := position.satlatitude
          , longitude := position.satlongitude
          , altitude_km := position.sataltitude
          , timestamp := position.timestamp
          , status := "success"
          , message := none
          , data_source := some "n2yo_api" }
        | some [] => noPositionDataResult
        | none => noPositionDataResult

/-- The default coordinates of `app.get_iss_position`
(`request.args.get("lat", 51.45)`, `request.args.get("lng", -2.59)`). -/
def defaultLatitude : Rat := 51.45

def defaultLongitude : Rat := -2.59

/- ------------------------------------------------------------------ -/
/- Gemini chat service (src/services/gemini_service.py)               -/
/- ------------------------------------------------------------------ -/

structure ConversationTurn where
  question : String
  response : String
deriving DecidableEq

/-- The call issued through `self.model.generate_content(full_prompt)`.
No timeout argument appears in the source, hence `timeout := none`. -/
structure GeminiCall where
  prompt : String
  timeout : Option Nat
deriving DecidableEq

def mkGeminiCall (prompt : String) : GeminiCall :=
  { prompt := prompt, timeout := none }

inductive GeminiOutcome where
  | ok (text : String)
  | exn (msg : String)

/-- The dictionary returned by `GeminiService.ask_question`; every branch
populates all three keys. -/
structure ChatResult where
  status : String
  response : String
  source : String
deriving DecidableEq

/-- The mock response of the unconfigured chat client (two adjacent Python
string literals, concatenated without a space). -/
def mockChatResponse : String :=
  "This is a demo response.Please configure your Google API key to use real Gemini AI."

/-- The error response of the configured chat client when the provider call
raises (two adjacent Python string literals, concatenated without a space). -/
def geminiErrorResponse : String :=
  "Sorry, I had trouble thinking of an answer right now.Can you try asking again?"

/-- The child-friendly persona preamble (`system_prompt`). -/
def systemPrompt : String :=
  "\nYou are a friendly space educator talking to curious children about astronomy,\nspace, and satellites.\n\nPersonalisation:\n- Isaac is 6 years old and loves exoplanets.\n- Confirm if you're speaking to Isaac unless its a test.\n- If user responds yes or similar to your question confirming if its Isaac,\nthen say use his name gracefully in subsequent responses.\n\nKeep your answers:\n- Simple and easy to understand\n- Exciting and fun\n- Accurate but not too technical\n- Around 1-2 sentences for short questions\n- Include amazing space facts when relevant\n\nIMPORTANT: Your responses will be read aloud, so:\n- Do NOT use asterisks or other markdown formatting\n- Do NOT use special characters or symbols\n- Write in plain text that sounds natural when spoken\n- Instead of formatting emphasis, use natural speech patterns\n- Say \"Fun Fact:\" or \"Here's something cool:\" instead of \"Fun Fact:\"\n\nCRITICAL - Accuracy for children:\n- When asked about exoplanets or names that are given to exoplanets, search through\nresources such as NASA, International Astronomical Union or current data information.\n- If you don't know about a specific object, planet, or satellite,\nsay so honestly unless you have information as searched above.\n- Do NOT make up facts or guess about specific names or numbers\n- Instead say: \"I'm not sure about that specific one, but let me tell you about similar\nobjects!\"\n- It's better to admit uncertainty than to give wrong information to children\n\nTopics you can help with:\n- Planets, moons, and space objects\n- Satellites and space stations\n- Astronauts and space missions\n- How space things work\n- Space exploration history\n\nAlways be encouraging about learning and space exploration!"

/-- One history entry as rendered inside the prompt:
`f"Child: {msg['question']}\nSpace Guide: {msg['response']}"`. -/
def formatTurn (t : ConversationTurn) : String :=
  "Child: " ++ t.question ++ "\nSpace Guide: " ++ t.response

/-- The full prompt built in `GeminiService.ask_question`: persona preamble,
then (only when the history is non-empty) a `Previous conversation:` section
rendering the last three turns (`conversation_history[-3:]`, joined with
newlines), then the question and the `Space Guide:` cue. -/
def buildFullPrompt (pre : String) (history : List ConversationTurn)
    (question : String) : String :=
  if history.isEmpty then
    pre ++ "\n\nChild: " ++ question ++ "\nSpace Guide:"
  else
    pre ++ "\n\nPrevious conversation:" ++ "\n" ++
      String.intercalate "\n" ((history.drop (history.length - 3)).map formatTurn) ++
      "\n\nChild: " ++ question ++ "\nSpace Guide:"

/-- `GeminiService.ask_question`.  `hasApiKey` records whether
`GOOGLE_API_KEY` was present at construction (otherwise `self.model = None`);
`net` is the provider oracle. -/
def ask_question (hasApiKey : Bool) (net : GeminiCall → GeminiOutcome)
    (question : String) (conversation_history : List ConversationTurn) : ChatResult :=
  if !hasApiKey then
    { status := "success", response := mockChatResponse, source := "Mock" }
  else
    match net (mkGeminiCall (buildFullPrompt systemPrompt conversation_history question)) with
    | .ok text => { status := "success", response := pyStrip text, source := "gemini" }
    | .exn _ => { status := "error", response := geminiErrorResponse, source := "error" }

/- ------------------------------------------------------------------ -/
/- Google TTS service (src/services/tts_service.py)                   -/
/- ------------------------------------------------------------------ -/

/-- The outbound request of `TTSService.text_to_speech`:
`requests.post(url, json=payload, timeout=10)`.  `speakingRate` and `pitch`
are string-typed in the source payload. -/
structure TtsRequest where
  url : String
  text : String
  languageCode : String
  voiceName : String
  ssmlGender : String
  audioEncoding : String
  speakingRate : String
  pitch : String
  timeout : Option Nat
deriving DecidableEq

def mkTtsRequest (key text : String) : TtsRequest :=
  { url := "https://texttospeech.googleapis.com/v1/text:synthesize?key=" ++ key
  , text := text
  , languageCode := "en-us"
  , voiceName := "en-us-Neural2-F"
  , ssmlGender := "FEMALE"
  , audioEncoding := "MP3"
  , speakingRate := "1.0"
  , pitch := "2.0"
  , timeout := some 10 }

/-- Parsed JSON body of a 2xx TTS response; `audioContent` is read with
`result.get("audioContent")`. -/
structure TtsBody where
  audioContent : Option String
deriving DecidableEq

/-- `exn` covers the single `except Exception` arm (network failure, timeout,
non-success status via `raise_for_status`, JSON decoding). -/
inductive TtsOutcome where
  | ok (body : TtsBody)
  | exn (msg : String)

/-- The dictionary returned by `TTSService.text_to_speech`; keys absent from
a given branch are `none`. -/
structure TtsResult where
  status : String
  audio_data : Option String
  message : Option String
  source : Option String
deriving DecidableEq

/-- `TTSService.text_to_speech`.  `api_key` is the optional `GOOGLE_API_KEY`;
`net` is the network oracle.  Note that Python's `if audio_data:` is false for
both a missing and an empty `audioContent`. -/
def text_to_speech (api_key : Option String) (net : TtsRequest → TtsOutcome)
    (text : String) : TtsResult :=
  match api_key with
  | none =>
    { status := "error", audio_data := none
    , message := some "TTS service not available", source := none }
  | some key =>
    match net (mkTtsRequest key text) with
    | .exn msg =>
      { status := "error", audio_data := none
      , message := some ("Text To Speech failed: " ++ msg), source := none }
    | .ok body =>
      match body.audioContent with
      | some a =>
        if a.isEmpty then
          { status := "error", audio_data := none
          , message := some "No audio data returned", source := none }
        else
          { status := "success", audio_data := some a
          , message := none, source := some "google_tts" }
      | none =>
        { status := "error", audio_data := none
        , message := some "No audio data returned", source := none }

/- ------------------------------------------------------------------ -/
/- Request dispatcher (src/app.py)                                    -/
/- ------------------------------------------------------------------ -/

/-- The JSON body of a chat request; `question` may be absent
(`data.get("question", "")`), `history` defaults to `[]`. -/
structure AskRequestBody where
  question : Option String
  history : List ConversationTurn
deriving DecidableEq

/-- The envelope returned by `/api/ask`; keys absent from a given branch are
`none`. -/
structure AskEnvelope where
  status : String
  response : Option String
  source : Option String
  message : Option String
deriving DecidableEq

/-- `app.ask_ai`: strip the question, reject a blank one with a validation
error, otherwise call the chat client and return its result. -/
def ask_ai (geminiKey : Bool) (net : GeminiCall → GeminiOutcome)
    (body : AskRequestBody) : AskEnvelope :=
  let question := pyStrip (body.question.getD "")
  if question.isEmpty then
    { status := "error", response := none, source := none
    , message := some "Please ask a question" }
  else
    let result := ask_question geminiKey net question body.history
    { status := result.status, response := some result.response
    , source := some result.source, message := none }

/-- The envelope returned by `/api/ask-with-voice`; `audio_available` is only
present on the success path, hence optional. -/
structure VoiceEnvelope where
  status : String
  response : Option String
  audio_data : Option String
  audio_available : Option Bool
  source : Option String
  message : Option String
deriving DecidableEq

/-- `app.ask_ai_with_voice`: strip and validate the question, call the chat
client, synthesize speech from its `response`, and assemble the combined
envelope (`audio_available` is `audio_result["status"] == "success"`). -/
def ask_ai_with_voice (geminiKey : Bool) (gnet : GeminiCall → GeminiOutcome)
    (ttsKey : Option String) (tnet : TtsRequest → TtsOutcome)
    (body : AskRequestBody) : VoiceEnvelope :=
  let question := pyStrip (body.question.getD "")
  if question.isEmpty then
    { status := "error", response := none, audio_data := none
    , audio_available := none, source := none
    , message := some "Please ask a question!" }
  else
    let result := ask_question geminiKey gnet question body.history
    let audio_result := text_to_speech ttsKey tnet result.response
    { status := "success"
    , response := some result.response
    , audio_data := audio_result.audio_data
    , audio_available := some (audio_result.status == "success")
    , source := some result.source
    , message := none }

/- ------------------------------------------------------------------ -/
/- Rate governor                                                      -/
/- ------------------------------------------------------------------ -/

/-- Modelled from the spec: the admission-window algorithm itself lives in the
external flask_limiter dependency; the repository only configures it
(`@limiter.limit("10 per minute")` on the chat endpoints in src/app.py, keyed
by `get_remote_address` in src/services/rate_limiter.py).  Per spec section
4.3, we model a sliding one-minute window of capacity 10 per client identity:
the ledger stores the (identity, timestamp) of admitted requests. -/
abbrev RateLedger := List (String × Nat)

/-- Number of admitted requests of `identity` whose timestamp lies in the
one-minute window ending at time `t`. -/
def countInWindow (ledger : RateLedger) (identity : String) (t : Nat) : Nat :=
  (ledger.filter (fun e => e.1 == identity && decide (e.2 ≤ t) && decide (t < e.2 + 60))).length

/-- Modelled from the spec: `check_and_record(identity, operation_group)` for
the chat group's 10-per-minute window — admit and record when the window has
remaining capacity, otherwise reject without recording. -/
def check_and_record (ledger : RateLedger) (identity : String) (t : Nat) :
    Bool × RateLedger :=
  if countInWindow ledger identity t < 10 then (true, (identity, t) :: ledger)
  else (false, ledger)

/-- Run a sequence of admission checks, returning the decisions in order and
the final ledger. -/
def processRequests (ledger : RateLedger) : List (String × Nat) → List Bool × RateLedger
  | [] => ([], ledger)
  | r :: rs =>
    let step := check_and_record ledger r.1 r.2
    let rest := processRequests step.2 rs
    (step.1 :: rest.1, rest.2)

/-- The header of the prompt's history section. -/
def prevMarker : String := "Previous conversation"

/- ------------------------------------------------------------------ -/
/- Theorems                                                           -/
/- ------------------------------------------------------------------ -/

/-- A prefix of a list that stops before a separator character it does not
contain is a prefix of the part before the separator. -/
theorem prefix_sep {c : Char} {l a b : List Char} (hc : c ∉ l)
    (h : l <+: a ++ c :: b) : l <+: a := by
  induction a generalizing l with
  | nil =>
    cases l with
    | nil => exact List.nil_prefix
    | cons x l' =>
      exfalso
      obtain ⟨r, hr⟩ := h
      have h2 : x :: (l' ++ r) = c :: b := hr
      injection h2 with h1 _
      exact hc (by rw [← h1]; exact List.mem_cons_self x l')
  | cons y a' ih =>
    cases l with
    | nil => exact List.nil_prefix
    | cons x l' =>
      rw [List.cons_append, List.cons_prefix_cons] at h
      obtain ⟨hxy, h'⟩ := h
      have hc' : c ∉ l' := fun hm => hc (List.mem_cons_of_mem x hm)
      rw [List.cons_prefix_cons]
      exact ⟨hxy, ih hc' h'⟩

/-- An infix of `a ++ c :: b` that does not contain the separator `c` lies
entirely inside `a` or entirely inside `b`. -/
theorem infix_sep {c : Char} {l a b : List Char} (hc : c ∉ l)
    (h : l <:+: a ++ c :: b) : l <:+: a ∨ l <:+: b := by
  induction a generalizing l with
  | nil =>
    rw [List.nil_append, List.infix_cons_iff] at h
    rcases h with hp | hi
    · cases l with
      | nil => exact Or.inl List.nil_infix
      | cons x l' =>
        exfalso
        obtain ⟨r, hr⟩ := hp
        have h2 : x :: (l' ++ r) = c :: b := hr
        injection h2 with h1 _
        exact hc (by rw [← h1]; exact List.mem_cons_self x l')
    · exact Or.inr hi
  | cons y a' ih =>
    rw [List.cons_append, List.infix_cons_iff] at h
    rcases h with hp | hi
    · left
      have hp' : l <+: (y :: a') ++ c :: b := by rwa [List.cons_append]
      exact List.IsPrefix.isInfix (prefix_sep hc hp')
    · rcases ih hc hi with h1 | h2
      · exact Or.inl (List.infix_cons h1)
      · exact Or.inr h2

/-- The history marker cannot start at a character other than `'P'`; an
occurrence inside `c :: t` must lie inside `t`. -/
theorem marker_infix_cons {c : Char} {t : List Char} (hc : c ≠ 'P')
    (h : prevMarker.data <:+: c :: t) : prevMarker.data <:+: t := by
  rw [List.infix_cons_iff] at h
  rcases h with hp | hi
  · exfalso
    obtain ⟨r, hr⟩ := hp
    have h2 : 'P' :: ("revious conversation".data ++ r) = c :: t := hr
    injection h2 with h1 _
    exact hc h1.symm
  · exact hi

/-- C1 (counterexample): the configured chat client does surface a provider
outage as a `status = "error"` result — `ask_question` on a raised provider
exception returns status `"error"`, contradicting the claim that a primary
provider failure is never surfaced as non-success. -/
theorem c1_chat_outage_error_counterexample :
    (ask_question true (fun _ => GeminiOutcome.exn "timed out") "What is a star?" []).status
      = "error" := rfl

/-- C1 (amended): the configured position client absorbs every network-level
failure, timeout or non-success status (`requests.exceptions.RequestException`)
and every other exception into the successful fallback payload; the configured
chat client instead returns a `status = "error"` result with a fixed apologetic
message and source `"error"` when its provider call raises. -/
theorem c1_failure_policy_amended (key msg msg' q : String) (now : Int)
    (lat lng : Rat) (hist : List ConversationTurn) :
    get_iss_position { api_key := some key, mock_mode := false }
        (fun _ => N2yoOutcome.requestException msg) now lat lng = get_mock_data now ∧
    get_iss_position { api_key := some key, mock_mode := false }
        (fun _ => N2yoOutcome.otherException msg') now lat lng = get_mock_data now ∧
    (get_mock_data now).status = "success" ∧
    ask_question true (fun _ => GeminiOutcome.exn msg) q hist
      = { status := "error", response := geminiErrorResponse, source := "error" } :=
  ⟨rfl, rfl, rfl, rfl⟩

/-- C2 (counterexample): the unconfigured position client's payload is not
identical across two invocations — its `timestamp` field records the invocation
time, so calls at times 0 and 1 differ. -/
theorem c2_position_timestamp_counterexample :
    get_iss_position { api_key := none, mock_mode := false }
        (fun _ => N2yoOutcome.requestException "unused") 0 51.45 (-2.59)
      ≠ get_iss_position { api_key := none, mock_mode := false }
        (fun _ => N2yoOutcome.requestException "unused") 1 51.45 (-2.59) := by
  intro h
  have h' := congrArg PositionResult.timestamp h
  simp [get_iss_position, get_mock_data] at h'

/-- C2 (amended): a Provider Client constructed without a credential returns
its deterministic fallback for every input; the chat and speech clients'
payloads are identical across any two invocations, and the position client's
payload is identical in every field except `timestamp`, which records the
invocation time. -/
theorem c2_unconfigured_determinism_amended
    (net : N2yoRequest → N2yoOutcome) (m : Bool)
    (gnet gnet' : GeminiCall → GeminiOutcome) (tnet tnet' : TtsRequest → TtsOutcome)
    (q q' text text' : String) (hist hist' : List ConversationTurn)
    (now now' : Int) (lat lng : Rat) :
    ask_question false gnet q hist = ask_question false gnet' q' hist' ∧
    text_to_speech none tnet text = text_to_speech none tnet' text' ∧
    get_iss_position { api_key := none, mock_mode := m } net now lat lng
      = get_mock_data now ∧
    (get_mock_data now).satellite_name = (get_mock_data now').satellite_name ∧
    (get_mock_data now).latitude = (get_mock_data now').latitude ∧
    (get_mock_data now).longitude = (get_mock_data now').longitude ∧
    (get_mock_data now).altitude_km = (get_mock_data now').altitude_km ∧
    (get_mock_data now).status = (get_mock_data now').status ∧
    (get_mock_data now).message = (get_mock_data now').message ∧
    (get_mock_data now).data_source = (get_mock_data now').data_source ∧
    (get_mock_data now).timestamp = some now := by
  refine ⟨rfl, rfl, ?_, rfl, rfl, rfl, rfl, rfl, rfl, rfl, rfl⟩
  cases m <;> rfl

/-- C3 (counterexample): the chat provider's outbound call is issued without
any timeout (`generate_content` is passed no timeout argument), so not every
outbound call carries the 10-unit timeout. -/
theorem c3_gemini_no_timeout_counterexample :
    ¬ (mkGeminiCall "What is a black hole?").timeout = some 10 := by decide

/-- C3 (amended): the position-lookup and speech-synthesis outbound calls are
constructed with a fixed timeout of 10 time units; the conversational-answer
call is issued with no explicit timeout. -/
theorem c3_timeouts_amended (key text prompt : String) (lat lng : Rat) :
    (mkN2yoRequest key lat lng).timeout = some 10 ∧
    (mkTtsRequest key text).timeout = some 10 ∧
    (mkGeminiCall prompt).timeout = none :=
  ⟨rfl, rfl, rfl⟩

/-- C4 (counterexample): a configured position lookup whose external request
succeeds with an empty `positions` list returns a `status = "error"` result,
not the fallback payload. -/
theorem c4_empty_positions_error_counterexample :
    (get_iss_position { api_key := some "k", mock_mode := false }
        (fun _ => N2yoOutcome.ok { positions := some [], info := none })
        0 51.45 (-2.59)).status = "error" := rfl

/-- C4 (amended): a configured position lookup whose external request succeeds
but whose body has a missing or empty `positions` list returns the explicit
error dictionary with status `"error"` and message
`"No position data available"` — an explicit error rather than a silent null,
but not the fallback payload. -/
theorem c4_missing_positions_amended (key : String) (now : Int) (lat lng : Rat)
    (info : Option N2yoInfo) :
    get_iss_position { api_key := some key, mock_mode := false }
        (fun _ => N2yoOutcome.ok { positions := none, info := info }) now lat lng
      = noPositionDataResult ∧
    get_iss_position { api_key := some key, mock_mode := false }
        (fun _ => N2yoOutcome.ok { positions := some [], info := info }) now lat lng
      = noPositionDataResult ∧
    noPositionDataResult.status = "error" ∧
    noPositionDataResult.message = some "No position data available" :=
  ⟨rfl, rfl, rfl, rfl⟩

/-- C7: a position lookup with the default coordinates against an unconfigured
position provider returns the fixed mock payload — satellite name "ISS",
latitude 25.2048, longitude 55.2708, altitude 408.5 km, status "success" — and
the result is independent of the supplied latitude and longitude. -/
theorem c7_unconfigured_position_fixed_payload
    (net net' : N2yoRequest → N2yoOutcome) (now : Int) (lat lng lat' lng' : Rat) :
    get_iss_position { api_key := none, mock_mode := false } net now
        defaultLatitude defaultLongitude = get_mock_data now ∧
    (get_mock_data now).satellite_name = some "ISS" ∧
    (get_mock_data now).latitude = some 25.2048 ∧
    (get_mock_data now).longitude = some 55.2708 ∧
    (get_mock_data now).altitude_km = some 408.5 ∧
    (get_mock_data now).status = "success" ∧
    get_iss_position { api_key := none, mock_mode := false } net now lat lng
      = get_iss_position { api_key := none, mock_mode := false } net' now lat' lng' :=
  ⟨rfl, rfl, rfl, rfl, rfl, rfl, rfl⟩

/-- C9: a chat request whose question is missing, empty, or whitespace-only is
answered with the validation-error envelope (status "error", a message) and
the result is independent of the chat provider configuration and oracle — no
Provider Client is invoked. -/
theorem c9_blank_question_validation (k k' : Bool)
    (f g : GeminiCall → GeminiOutcome) (body : AskRequestBody)
    (hblank : pyStrip (body.question.getD "") = "") :
    ask_ai k f body
      = { status := "error", response := none, source := none
        , message := some "Please ask a question" } ∧
    ask_ai k f body = ask_ai k' g body := by
  have h : (pyStrip (body.question.getD "")).isEmpty = true := by
    rw [hblank]; rfl
  constructor <;> simp [ask_ai, h]

/-- The window count never exceeds the ledger size. -/
theorem countInWindow_le_length (ledger : RateLedger) (i : String) (t : Nat) :
    countInWindow ledger i t ≤ ledger.length :=
  List.length_filter_le _ _

/-- If every ledger entry belongs to `i` and lies in the window ending at `t`,
the window count is the full ledger size. -/
theorem countInWindow_full (ledger : RateLedger) (i : String) (t : Nat)
    (h : ∀ e ∈ ledger, e.1 = i ∧ e.2 ≤ t ∧ t < e.2 + 60) :
    countInWindow ledger i t = ledger.length := by
  have hf : ledger.filter
      (fun e => e.1 == i && decide (e.2 ≤ t) && decide (t < e.2 + 60)) = ledger := by
    rw [List.filter_eq_self]
    intro e he
    obtain ⟨h1, h2, h3⟩ := h e he
    simp [h1, h2, h3]
  unfold countInWindow
  rw [hf]

/-- An identity with no ledger entries has window count zero. -/
theorem countInWindow_other (ledger : RateLedger) (i j : String) (t : Nat)
    (hij : j ≠ i) (h : ∀ e ∈ ledger, e.1 = i) :
    countInWindow ledger j t = 0 := by
  have hf : ledger.filter
      (fun e => e.1 == j && decide (e.2 ≤ t) && decide (t < e.2 + 60)) = [] := by
    rw [List.filter_eq_nil_iff]
    intro e he
    rw [h e he]
    intro hc
    rw [Bool.and_eq_true, Bool.and_eq_true] at hc
    have hji : i = j := by simpa using hc.1.1
    exact hij hji.symm
  simp [countInWindow, hf]

/-- A full window rejects without recording. -/
theorem check_and_record_reject (ledger : RateLedger) (i : String) (t : Nat)
    (hlen : ledger.length = 10)
    (h : ∀ e ∈ ledger, e.1 = i ∧ e.2 ≤ t ∧ t < e.2 + 60) :
    check_and_record ledger i t = (false, ledger) := by
  unfold check_and_record
  rw [countInWindow_full ledger i t h, hlen]
  simp

/-- While the ledger plus the pending requests fit inside the capacity, every
request is admitted and recorded. -/
theorem process_all_admitted (rs : List (String × Nat)) :
    ∀ ledger : RateLedger, ledger.length + rs.length ≤ 10 →
      processRequests ledger rs = (List.replicate rs.length true, rs.reverse ++ ledger) := by
  induction rs with
  | nil => intro ledger _; simp [processRequests]
  | cons r rs ih =>
    intro ledger h
    simp only [List.length_cons] at h
    have hlen : ledger.length < 10 := by omega
    have hc : countInWindow ledger r.1 r.2 < 10 :=
      lt_of_le_of_lt (countInWindow_le_length ledger r.1 r.2) hlen
    have hrec := ih ((r.1, r.2) :: ledger) (by simp only [List.length_cons]; omega)
    simp only [processRequests, check_and_record, if_pos hc, hrec]
    simp [List.replicate_succ]

/-- Splitting a request sequence splits the processing. -/
theorem process_append (ledger : RateLedger) (xs ys : List (String × Nat)) :
    processRequests ledger (xs ++ ys)
      = ((processRequests ledger xs).1
            ++ (processRequests (processRequests ledger xs).2 ys).1,
          (processRequests (processRequests ledger xs).2 ys).2) := by
  induction xs generalizing ledger with
  | nil => simp [processRequests]
  | cons x xs ih => simp [processRequests, ih]

/-- C5: for the chat group's 10-per-minute window keyed by client identity —
any identity issuing at most 10 requests is fully admitted; an identity issuing
10 requests within one minute has its 11th request of that minute rejected; and
a request from a distinct identity at the same moment is still admitted. -/
theorem c5_chat_rate_window (i j : String) (ts ts10 : List Nat) (t11 : Nat)
    (hij : j ≠ i) (hlen : ts.length = 10)
    (hwin : ∀ t ∈ ts, t ≤ t11 ∧ t11 < t + 60)
    (h10 : ts10.length ≤ 10) :
    (processRequests [] (ts10.map (fun t => (i, t)))).1
      = List.replicate ts10.length true ∧
    (processRequests [] (ts.map (fun t => (i, t)) ++ [(i, t11)])).1
      = List.replicate 10 true ++ [false] ∧
    (check_and_record
        (processRequests [] (ts.map (fun t => (i, t)) ++ [(i, t11)])).2 j t11).1
      = true := by
  have hpart1 : (processRequests [] (ts10.map (fun t => (i, t)))).1
      = List.replicate ts10.length true := by
    have := process_all_admitted (ts10.map (fun t => (i, t))) [] (by simp [h10])
    simp [this]
  have hA : processRequests [] (ts.map (fun t => (i, t)))
      = (List.replicate 10 true, (ts.map (fun t => (i, t))).reverse) := by
    have := process_all_admitted (ts.map (fun t => (i, t))) [] (by simp [hlen])
    simpa [hlen] using this
  have hfull : ∀ e ∈ (ts.map (fun t => (i, t))).reverse,
      e.1 = i ∧ e.2 ≤ t11 ∧ t11 < e.2 + 60 := by
    intro e he
    rw [List.mem_reverse, List.mem_map] at he
    obtain ⟨t, ht, rfl⟩ := he
    exact ⟨rfl, (hwin t ht).1, (hwin t ht).2⟩
  have hreject := check_and_record_reject (ts.map (fun t => (i, t))).reverse i t11
    (by simp [hlen]) hfull
  have happ := process_append [] (ts.map (fun t => (i, t))) [(i, t11)]
  rw [hA] at happ
  have hstep : processRequests (ts.map (fun t => (i, t))).reverse [(i, t11)]
      = ([false], (ts.map (fun t => (i, t))).reverse) := by
    simp [processRequests, hreject]
  rw [hstep] at happ
  have hz := countInWindow_other (ts.map (fun t => (i, t))).reverse i j t11 hij
    (fun e he => (hfull e he).1)
  refine ⟨hpart1, by rw [happ], ?_⟩
  rw [happ]
  simp [check_and_record, hz]

/-- C5 (witness): ten requests from one address at seconds 0–9 plus an 11th at
second 59 — the 11th is rejected while a different address is admitted. -/
theorem c5_chat_rate_window_witness :
    (processRequests [] (([40, 41] : List Nat).map (fun t => ("1.2.3.4", t)))).1
      = List.replicate ([40, 41] : List Nat).length true ∧
    (processRequests [] (([0, 1, 2, 3, 4, 5, 6, 7, 8, 9] : List Nat).map
        (fun t => ("1.2.3.4", t)) ++ [("1.2.3.4", 59)])).1
      = List.replicate 10 true ++ [false] ∧
    (check_and_record
        (processRequests [] (([0, 1, 2, 3, 4, 5, 6, 7, 8, 9] : List Nat).map
          (fun t => ("1.2.3.4", t)) ++ [("1.2.3.4", 59)])).2 "5.6.7.8" 59).1
      = true :=
  c5_chat_rate_window "1.2.3.4" "5.6.7.8" [0, 1, 2, 3, 4, 5, 6, 7, 8, 9] [40, 41] 59
    (by decide) (by decide) (by decide) (by decide)

/-- A non-empty string has `isEmpty = false`. -/
theorem isEmpty_false_of_ne {s : String} (h : s ≠ "") : s.isEmpty = false := by
  rw [Bool.eq_false_iff]
  intro hx
  exact h ((String.isEmpty_iff s).mp hx)

/-- Shape analysis of `text_to_speech`: every result is either a success
carrying non-empty audio data, or an error with a message and no audio data. -/
theorem tts_shape (api_key : Option String) (net : TtsRequest → TtsOutcome)
    (text : String) :
    ((text_to_speech api_key net text).status = "success" ∧
      ∃ a, (text_to_speech api_key net text).audio_data = some a ∧ a ≠ "") ∨
    ((text_to_speech api_key net text).status = "error" ∧
      (text_to_speech api_key net text).audio_data = none ∧
      (text_to_speech api_key net text).message.isSome = true) := by
  cases api_key with
  | none => right; exact ⟨rfl, rfl, rfl⟩
  | some key =>
    cases hn : net (mkTtsRequest key text) with
    | exn m => right; simp [text_to_speech, hn]
    | ok body =>
      cases hb : body.audioContent with
      | none => right; simp [text_to_speech, hn, hb]
      | some a =>
        cases he : a.isEmpty with
        | true => right; simp [text_to_speech, hn, hb, he]
        | false =>
          left
          have ha : a ≠ "" := by
            intro hcontra
            rw [hcontra] at he
            exact absurd he (by decide)
          refine ⟨?_, a, ?_, ha⟩ <;> simp [text_to_speech, hn, hb, he]

/-- The boolean `status == "success"` of a TTS result coincides with the
presence of its audio data. -/
theorem tts_status_beq (api_key : Option String) (net : TtsRequest → TtsOutcome)
    (text : String) :
    ((text_to_speech api_key net text).status == "success")
      = (text_to_speech api_key net text).audio_data.isSome := by
  rcases tts_shape api_key net text with ⟨h1, a, h2, _⟩ | ⟨h1, h2, _⟩ <;>
    rw [h1, h2] <;> rfl

/-- C8: a chat-with-speech request with a non-blank question against an
unconfigured speech provider yields an envelope with status "success",
`audio_available` false, no audio data, and `response`/`source` taken from the
chat call's result. -/
theorem c8_voice_tts_unconfigured (gKey : Bool) (gnet : GeminiCall → GeminiOutcome)
    (tnet : TtsRequest → TtsOutcome) (q : String) (hist : List ConversationTurn)
    (hq : pyStrip q ≠ "") :
    ask_ai_with_voice gKey gnet none tnet { question := some q, history := hist }
      = { status := "success"
        , response := some (ask_question gKey gnet (pyStrip q) hist).response
        , audio_data := none
        , audio_available := some false
        , source := some (ask_question gKey gnet (pyStrip q) hist).source
        , message := none } := by
  have h : (pyStrip q).isEmpty = false := isEmpty_false_of_ne hq
  simp [ask_ai_with_voice, h, text_to_speech]

/-- C8 (witness): the theorem applied to the question "Hi" with both providers
unconfigured or failing. -/
theorem c8_voice_tts_unconfigured_witness :
    ask_ai_with_voice false (fun _ => GeminiOutcome.exn "down") none
        (fun _ => TtsOutcome.exn "down") { question := some "Hi", history := [] }
      = { status := "success"
        , response := some (ask_question false (fun _ => GeminiOutcome.exn "down")
            (pyStrip "Hi") []).response
        , audio_data := none
        , audio_available := some false
        , source := some (ask_question false (fun _ => GeminiOutcome.exn "down")
            (pyStrip "Hi") []).source
        , message := none } :=
  c8_voice_tts_unconfigured false (fun _ => GeminiOutcome.exn "down")
    (fun _ => TtsOutcome.exn "down") "Hi" [] (by decide)

/-- C10: `text_to_speech` returns status "success" exactly when the result
carries a non-empty `audio_data` field; every non-success result carries a
message and no audio data; and the voice dispatcher's `audio_available` flag
equals the presence of audio data in the TTS result it embeds. -/
theorem c10_tts_status_audio_invariant (api_key : Option String)
    (net : TtsRequest → TtsOutcome) (text : String)
    (gKey : Bool) (gnet : GeminiCall → GeminiOutcome) (q : String)
    (hist : List ConversationTurn) (hq : pyStrip q ≠ "") :
    ((text_to_speech api_key net text).status = "success"
        ↔ ∃ a, (text_to_speech api_key net text).audio_data = some a ∧ a ≠ "") ∧
    ((text_to_speech api_key net text).status ≠ "success"
        → (text_to_speech api_key net text).message.isSome = true
          ∧ (text_to_speech api_key net text).audio_data = none) ∧
    (ask_ai_with_voice gKey gnet api_key net
        { question := some q, history := hist }).audio_available
      = some (text_to_speech api_key net
          (ask_question gKey gnet (pyStrip q) hist).response).audio_data.isSome := by
  refine ⟨?_, ?_, ?_⟩
  · rcases tts_shape api_key net text with ⟨h1, a, h2, h3⟩ | ⟨h1, h2, h3⟩
    · exact ⟨fun _ => ⟨a, h2, h3⟩, fun _ => h1⟩
    · constructor
      · intro hs; rw [h1] at hs; exact absurd hs (by decide)
      · rintro ⟨a, ha, _⟩; rw [h2] at ha; exact absurd ha (by simp)
  · intro hs
    rcases tts_shape api_key net text with ⟨h1, _, _⟩ | ⟨h1, h2, h3⟩
    · exact absurd h1 hs
    · exact ⟨h3, h2⟩
  · have h : (pyStrip q).isEmpty = false := isEmpty_false_of_ne hq
    simp only [ask_ai_with_voice, Option.getD_some, h, Bool.false_eq_true,
      if_false, tts_status_beq]

/-- C10 (witness): the invariant applied to an unconfigured speech provider and
a concrete request. -/
theorem c10_tts_status_audio_invariant_witness :
    ((text_to_speech none (fun _ => TtsOutcome.exn "down") "Hello").status = "success"
        ↔ ∃ a, (text_to_speech none (fun _ => TtsOutcome.exn "down") "Hello").audio_data
            = some a ∧ a ≠ "") ∧
    ((text_to_speech none (fun _ => TtsOutcome.exn "down") "Hello").status ≠ "success"
        → (text_to_speech none (fun _ => TtsOutcome.exn "down") "Hello").message.isSome = true
          ∧ (text_to_speech none (fun _ => TtsOutcome.exn "down") "Hello").audio_data = none) ∧
    (ask_ai_with_voice false (fun _ => GeminiOutcome.ok "answer") none
        (fun _ => TtsOutcome.exn "down")
        { question := some "Hi", history := [] }).audio_available
      = some (text_to_speech none (fun _ => TtsOutcome.exn "down")
          (ask_question false (fun _ => GeminiOutcome.ok "answer")
            (pyStrip "Hi") []).response).audio_data.isSome :=
  c10_tts_status_audio_invariant none (fun _ => TtsOutcome.exn "down") "Hello"
    false (fun _ => GeminiOutcome.ok "answer") "Hi" [] (by decide)

/-- C9 (witness): the validation theorem applied to a whitespace-only question. -/
theorem c9_blank_question_validation_witness :
    ask_ai true (fun _ => GeminiOutcome.ok "answer")
        { question := some "   ", history := [] }
      = { status := "error", response := none, source := none
        , message := some "Please ask a question" } ∧
    ask_ai true (fun _ => GeminiOutcome.ok "answer")
        { question := some "   ", history := [] }
      = ask_ai false (fun _ => GeminiOutcome.exn "boom")
        { question := some "   ", history := [] } :=
  c9_blank_question_validation true false (fun _ => GeminiOutcome.ok "answer")
    (fun _ => GeminiOutcome.exn "boom") { question := some "   ", history := [] }
    (by decide)

/-- C6: the prompt builder is a pure function of the persona preamble, the
turn list and the question; with an empty turn list the prompt contains no
"Previous conversation" section (provided neither the preamble nor the
question contains that marker themselves), and with more than 3 turns exactly
the last 3 turns appear, oldest of the three first, each rendered with its
question and response. -/
theorem c6_prompt_builder (pre q : String) (a : List ConversationTurn)
    (t1 t2 t3 : ConversationTurn)
    (hpre : ¬ prevMarker.data <:+: pre.data)
    (hq : ¬ prevMarker.data <:+: q.data) (ha : a ≠ []) :
    (¬ prevMarker.data <:+: (buildFullPrompt pre [] q).data) ∧
    buildFullPrompt pre (a ++ [t1, t2, t3]) q
      = pre ++ "\n\nPrevious conversation:" ++ "\n"
          ++ (formatTurn t1 ++ "\n" ++ formatTurn t2 ++ "\n" ++ formatTurn t3)
          ++ "\n\nChild: " ++ q ++ "\nSpace Guide:" := by
  have hnl : '\n' ∉ prevMarker.data := by decide
  constructor
  · intro h
    have hb : buildFullPrompt pre [] q
        = pre ++ "\n\nChild: " ++ q ++ "\nSpace Guide:" := rfl
    rw [hb] at h
    simp only [String.data_append, List.append_assoc] at h
    simp only [List.cons_append, List.nil_append] at h
    rcases infix_sep hnl h with h1 | h1
    · exact hpre h1
    · have h2 := marker_infix_cons (by decide) h1
      have h3 := marker_infix_cons (by decide) h2
      have h4 := marker_infix_cons (by decide) h3
      have h5 := marker_infix_cons (by decide) h4
      have h6 := marker_infix_cons (by decide) h5
      have h7 := marker_infix_cons (by decide) h6
      have h8 := marker_infix_cons (by decide) h7
      have h8' := marker_infix_cons (by decide) h8
      rcases infix_sep hnl h8' with h9 | h9
      · exact hq h9
      · exact (by decide :
          ¬ prevMarker.data <:+:
            ['S', 'p', 'a', 'c', 'e', ' ', 'G', 'u', 'i', 'd', 'e', ':']) h9
  · have hne : (a ++ [t1, t2, t3]).isEmpty = false := by
      cases a <;> rfl
    have h33 : (a ++ [t1, t2, t3]).length - 3 = a.length := by
      simp [List.length_append]
    unfold buildFullPrompt
    rw [hne, h33, List.drop_left]
    rfl

/-- C6 (witness): the prompt-builder theorem applied to a concrete preamble,
question and four-turn history. -/
theorem c6_prompt_builder_witness :
    (¬ prevMarker.data <:+:
        (buildFullPrompt "You are a space guide." []
          "Why is the sky dark?").data) ∧
    buildFullPrompt "You are a space guide."
        ([{ question := "q0", response := "r0" }]
          ++ [{ question := "q1", response := "r1" },
              { question := "q2", response := "r2" },
              { question := "q3", response := "r3" }])
        "Why is the sky dark?"
      = "You are a space guide." ++ "\n\nPrevious conversation:" ++ "\n"
          ++ (formatTurn { question := "q1", response := "r1" } ++ "\n"
              ++ formatTurn { question := "q2", response := "r2" } ++ "\n"
              ++ formatTurn { question := "q3", response := "r3" })
          ++ "\n\nChild: " ++ "Why is the sky dark?" ++ "\nSpace Guide:" :=
  c6_prompt_builder "You are a space guide." "Why is the sky dark?"
    [{ question := "q0", response := "r0" }]
    { question := "q1", response := "r1" }
    { question := "q2", response := "r2" }
    { question := "q3", response := "r3" }
    (by decide) (by decide) (by decide)

end SpaceExplorer
